import Mathlib

/-!
Shallow embedding of `src/server.py` (empath-poke-bridge), an MCP facade
exposing `create_empath_journal_entry` (validated journal submission over
HTTP) and `get_empath_tools_help` (a static help document).

Modelling conventions:
* Python strings are `String`; a possibly-`None` string argument is
  `Option String` (`none` = Python `None`).
* Environment configuration (`EMPATH_BASE_URL`, `EMPATH_TIMEOUT`) is an
  explicit `Config` record of optional strings (`none` = variable unset).
* The outbound `httpx.post` call is an oracle `post : String → Dict →
  PostResult`: either a completed `HttpResponse` (whose `.json()` result is
  the abstract field `jsonParse`, `none` meaning the parse raises) or a
  raised `httpx.HTTPError` carrying its string description.  The function
  applies the oracle exactly once, mirroring the single-shot call.
* Python dictionaries are ordered association lists `List (String × Value)`
  over a JSON-like `Value` type.
* An exception escaping the operation is `Except.error`; a returned
  envelope is `Except.ok`.
-/

/-- Python whitespace characters, as stripped by `str.strip()`
(ASCII whitespace, the information separators, and the Unicode
space/line/paragraph separators). -/
def isPyWhitespace (c : Char) : Bool :=
  c = ' ' || c = '\t' || c = '\n' || c = '\r' ||
  c.toNat = 0x0b || c.toNat = 0x0c ||
  (0x1c ≤ c.toNat && c.toNat ≤ 0x1f) ||
  c.toNat = 0x85 || c.toNat = 0xa0 ||
  c.toNat = 0x1680 ||
  (0x2000 ≤ c.toNat && c.toNat ≤ 0x200a) ||
  c.toNat = 0x2028 || c.toNat = 0x2029 || c.toNat = 0x202f ||
  c.toNat = 0x205f || c.toNat = 0x3000

/-- Python `s.strip()`: drop leading and trailing whitespace. -/
def pyStrip (s : String) : String :=
  ⟨((s.data.dropWhile isPyWhitespace).reverse.dropWhile isPyWhitespace).reverse⟩

/-- Python `s or ""` applied to a possibly-`None` string: `None` (and the
falsy empty string) becomes `""`. -/
def pyOrEmpty (x : Option String) : String := x.getD ""

/-- Python `s.rstrip("/")`: drop every trailing `/`. -/
def rstripSlashes (s : String) : String :=
  ⟨(s.data.reverse.dropWhile (fun c => c = '/')).reverse⟩

/-- `re.fullmatch(r"\+[1-9]\d{1,14}", s)` succeeds: a literal `+`, a first
digit `1`–`9`, then 1 to 14 further digits, and nothing else. -/
def e164_fullmatch (s : String) : Bool :=
  match s.data with
  | '+' :: d :: rest =>
      ('1' ≤ d && d ≤ '9') && rest.all Char.isDigit &&
        (1 ≤ rest.length && rest.length ≤ 14)
  | _ => false

/-- The field-error map built by lines 73–80 of `server.py`: the text check
and the phone check run independently on the already-trimmed values. -/
def validation_errors (normalized_text normalized_phone : String) :
    List (String × String) :=
  (if normalized_text = "" then
    [("text_journal", "Must be non-empty after trimming.")] else [])
  ++ (if e164_fullmatch normalized_phone then [] else
    [("user_phone_number", "Must be E.164, e.g., +15551234567.")])

/-- A digit run continued: after an initial digit, Python number syntax
allows further digits, with single underscores only between digits. -/
def digitRunTail : List Char → List Char
  | [] => []
  | c :: rest =>
      if c.isDigit then digitRunTail rest
      else
        match rest with
        | d :: rest2 =>
            if c = '_' && d.isDigit then digitRunTail rest2
            else c :: rest
        | [] => [c]

/-- Consume a digit run (at least one digit, underscores between digits);
`none` when the input does not start with a digit. -/
def digitRun : List Char → Option (List Char)
  | c :: rest => if c.isDigit then some (digitRunTail rest) else none
  | [] => none

/-- An optional exponent part closing a Python float literal:
either nothing remains, or `e`/`E`, an optional sign, and a digit run
consuming the whole rest. -/
def expPart : List Char → Bool
  | [] => true
  | c :: rest =>
      if c = 'e' || c = 'E' then
        let body := match rest with
          | s :: r2 => if s = '+' || s = '-' then r2 else s :: r2
          | [] => []
        match digitRun body with
        | some [] => true
        | _ => false
      else false

/-- A Python numeric float literal body (after sign): `digits [. digits?]`
or `. digits`, followed by an optional exponent. -/
def numericValid (l : List Char) : Bool :=
  match l with
  | '.' :: rest =>
      match digitRun rest with
      | some r => expPart r
      | none => false
  | _ =>
      match digitRun l with
      | some ('.' :: r2) =>
          match digitRun r2 with
          | some r3 => expPart r3
          | none => expPart r2
      | some r => expPart r
      | none => false

/-- `inf`, `infinity` or `nan`, case-insensitively. -/
def infNan (l : List Char) : Bool :=
  l.map Char.toLower == ['i', 'n', 'f'] ||
  l.map Char.toLower == ['i', 'n', 'f', 'i', 'n', 'i', 't', 'y'] ||
  l.map Char.toLower == ['n', 'a', 'n']

/-- Whether Python `float(s)` succeeds (rather than raising `ValueError`):
optional surrounding whitespace, an optional sign, then `inf`/`infinity`/
`nan` or a numeric literal. -/
def pyFloatValid (s : String) : Bool :=
  let l := ((s.data.dropWhile isPyWhitespace).reverse.dropWhile
    isPyWhitespace).reverse
  let body := match l with
    | c :: rest => if c = '+' || c = '-' then rest else c :: rest
    | [] => []
  infNan body || numericValid body

/-- JSON-like values: the payloads, envelopes and parsed response bodies
passed around by the server (Python dictionaries are ordered association
lists). -/
inductive Value where
  | null
  | bool (b : Bool)
  | num (n : Int)
  | str (s : String)
  | arr (xs : List Value)
  | obj (fields : List (String × Value))
deriving Repr

/-- An ordered Python dictionary with string keys. -/
abbrev Dict := List (String × Value)

/-- First-match key lookup in an ordered dictionary. -/
def dictGet (d : Dict) (k : String) : Option Value :=
  (d.find? (fun p => p.1 == k)).map (fun p => p.2)

/-- A completed HTTP exchange, as seen through `httpx`: the numeric status,
the `content-type` header (`""` when absent), the raw text body, and the
outcome of `.json()` (`none` = the parse raises). -/
structure HttpResponse where
  status_code : Nat
  content_type : String
  text : String
  jsonParse : Option Value

/-- `httpx` `Response.is_success`: status in 200–299. -/
def is_success (r : HttpResponse) : Bool :=
  200 ≤ r.status_code && r.status_code ≤ 299

/-- Outcome of `httpx.post`: the exchange completed, or an
`httpx.HTTPError` was raised with the given string description. -/
inductive PostResult where
  | completed (r : HttpResponse)
  | httpError (e : String)

/-- `pat in s` on Python strings: `pat` occurs as a contiguous substring. -/
def strContains (s pat : String) : Bool :=
  (List.range (s.data.length + 1)).any
    (fun i => (s.data.drop i).take pat.data.length == pat.data)

/-- Lines 111–118 of `server.py`: interpret a completed response body by
content type — parse as JSON when the content type mentions
`application/json`, falling back to the raw text when the parse raises;
otherwise use the raw text. -/
def interpret_response (r : HttpResponse) : Value :=
  if strContains r.content_type "application/json" then
    match r.jsonParse with
    | some v => v
    | none => .str r.text
  else .str r.text

/-- The environment configuration read by the server. `none` models an
unset variable. -/
structure Config where
  empathBaseUrl : Option String
  empathTimeout : Option String

/-- Lines 62–63 of `server.py`: the endpoint is the base URL (default
`https://app.empathdash.com`) with trailing slashes `rstrip`ped, plus the
fixed API path. -/
def endpointOf (cfg : Config) : String :=
  rstripSlashes (cfg.empathBaseUrl.getD "https://app.empathdash.com") ++
    "/api/journals/createTextEntryOrRegister"

/-- `create_empath_journal_entry` (lines 40–133 of `server.py`).  `post` is
the `httpx.post` oracle, applied exactly once and only on the valid-input
path.  `Except.error` marks an exception escaping the function (the
uncaught `ValueError` from `float(...)` on line 102); every envelope the
function returns is `Except.ok`. -/
def create_empath_journal_entry (cfg : Config)
    (post : String → Dict → PostResult)
    (text_journal user_phone_number : Option String) : Except String Dict :=
  let endpoint := endpointOf cfg
  let normalized_text := pyStrip (pyOrEmpty text_journal)
  let normalized_phone := pyStrip (pyOrEmpty user_phone_number)
  let ve := validation_errors normalized_text normalized_phone
  if ve ≠ [] then
    .ok [("ok", .bool false),
         ("status_code", .num 400),
         ("url", .str endpoint),
         ("request_payload", .obj
           [("textJournal", .str normalized_text),
            ("userPhoneNumber", .str normalized_phone)]),
         ("response", .obj
           [("message", .str "Invalid input"),
            ("errors", .obj (ve.map (fun p => (p.1, Value.str p.2))))])]
  else
    let payload : Dict :=
      [("textJournal", .str normalized_text),
       ("userPhoneNumber", .str normalized_phone)]
    if pyFloatValid (cfg.empathTimeout.getD "15") then
      match post endpoint payload with
      | .completed r =>
          .ok [("ok", .bool (is_success r)),
               ("status_code", .num r.status_code),
               ("url", .str endpoint),
               ("request_payload", .obj payload),
               ("response", interpret_response r)]
      | .httpError e =>
          .ok [("ok", .bool false),
               ("error", .str e),
               ("url", .str endpoint),
               ("request_payload", .obj payload)]
    else
      .error "ValueError: could not convert string to float"

/-- `get_empath_tools_help` (lines 136–202 of `server.py`): the static
help document, built from the configured base URL only. -/
def get_empath_tools_help (cfg : Config) : Value :=
  let base_url :=
    rstripSlashes (cfg.empathBaseUrl.getD "https://app.empathdash.com")
  .obj
    [("server", .obj
       [("name", .str "Empath MCP Server"),
        ("version", .str "1.0.0"),
        ("base_url", .str base_url)]),
     ("tools", .arr
       [.obj
         [("name", .str "create_empath_journal_entry"),
          ("description", .str "Create a text journal entry in Empath"),
          ("endpoint",
            .str (base_url ++ "/api/journals/createTextEntryOrRegister")),
          ("method", .str "POST"),
          ("parameters", .arr
            [.obj
              [("name", .str "text_journal"),
               ("type", .str "string"),
               ("required", .bool true),
               ("validation", .str "non-empty after trim"),
               ("maps_to", .str "textJournal"),
               ("example",
                 .str "Had a productive day shipping the MCP tool.")],
             .obj
              [("name", .str "user_phone_number"),
               ("type", .str "string"),
               ("required", .bool true),
               ("validation", .str "E.164 format: +15551234567"),
               ("maps_to", .str "userPhoneNumber"),
               ("example", .str "+15551234567")]]),
          ("example_request", .obj
            [("text_journal",
               .str "Had a productive day shipping the MCP tool."),
             ("user_phone_number", .str "+15551234567")]),
          ("example_payload_to_empath", .obj
            [("textJournal",
               .str "Had a productive day shipping the MCP tool."),
             ("userPhoneNumber", .str "+15551234567")]),
          ("success_response_shape", .obj
            [("message", .str "Text entry created"),
             ("journalId", .str "string"),
             ("newUser", .str "boolean"),
             ("subscriptionStatus", .str "string"),
             ("callsRemaining", .str "number"),
             ("mentions", .str "array")]),
          ("error_responses", .obj
            [("400", .obj
               [("message", .str "Invalid phone number format")]),
             ("402", .obj
               [("message", .str "Free limit reached"),
                ("subscriptionStatus", .str "free"),
                ("limitReached", .bool true),
                ("callsRemaining", .num 0)]),
             ("404", .obj [("message", .str "Client not found")]),
             ("500", .obj
               [("message", .str "Error creating text entry"),
                ("error", .str "string")])])]])]

/-!  Spec-side definitions.  Each of these is written from the wording of
the specification, to be compared with the source-translated code above. -/

/-- Spec: the phone pattern — one literal `+`, a first digit in range 1–9,
then 1 to 14 more digits, with nothing else (total digits 2–15). -/
def specE164 (s : String) : Bool :=
  match s.data with
  | [] => false
  | first :: digits =>
      first = '+' &&
      (match digits with
       | [] => false
       | d0 :: more =>
           ('1' ≤ d0 && d0 ≤ '9') && more.all Char.isDigit &&
             1 ≤ more.length && more.length ≤ 14)

/-- Spec: a string that is "empty or whitespace-only". -/
def whitespaceOnly (s : String) : Bool :=
  s.data.all isPyWhitespace

/-- Spec: the base URL "with trailing slash stripped" — remove the entire
trailing run of `/` characters (keep only the leading part before it). -/
def specStripTrailing (s : String) : String :=
  ⟨s.data.take (s.data.length -
    (s.data.reverse.takeWhile (fun c => c = '/')).length)⟩

/-- Spec: the endpoint — stripped base URL (default
`https://app.empathdash.com`) concatenated with the fixed API path. -/
def specEndpoint (cfg : Config) : String :=
  specStripTrailing (cfg.empathBaseUrl.getD "https://app.empathdash.com") ++
    "/api/journals/createTextEntryOrRegister"

/-!  Observation helpers over result envelopes. -/

/-- Look a field up in the validation-error map of a returned envelope
(`response` → `errors` → field); `none` when the path is absent. -/
def errLookup (res : Except String Dict) (field : String) : Option Value :=
  match res with
  | .error _ => none
  | .ok d =>
      match dictGet d "response" with
      | some (.obj ro) =>
          match dictGet ro "errors" with
          | some (.obj eo) => dictGet eo field
          | _ => none
      | _ => none

/-- A returned envelope's field, `none` when an exception escaped or the
key is absent. -/
def resLookup (res : Except String Dict) (k : String) : Option Value :=
  match res with
  | .error _ => none
  | .ok d => dictGet d k

/-- Look a field's reason up in a validation-error map. -/
def fieldErr (ve : List (String × String)) (k : String) : Option String :=
  (ve.find? (fun q => q.1 == k)).map (fun q => q.2)

/-!  General lemmas about the string helpers. -/

/-- Dropping a `p`-satisfying prefix does not change whether every element
satisfies `p`. -/
theorem dropWhile_forall_iff (p : Char → Bool) (l : List Char) :
    (∀ x ∈ l.dropWhile p, p x) ↔ (∀ x ∈ l, p x) := by
  constructor
  · intro h x hx
    rw [← List.takeWhile_append_dropWhile p l, List.mem_append] at hx
    rcases hx with hx | hx
    · exact List.mem_takeWhile_imp hx
    · exact h x hx
  · intro h x hx
    exact h x ((List.dropWhile_sublist p).subset hx)

/-- A string strips to empty exactly when it is empty or whitespace-only. -/
theorem pyStrip_eq_empty_iff (s : String) :
    pyStrip s = "" ↔ whitespaceOnly s = true := by
  obtain ⟨l⟩ := s
  show (⟨((l.dropWhile isPyWhitespace).reverse.dropWhile
    isPyWhitespace).reverse⟩ : String) = ⟨[]⟩ ↔ _
  rw [String.ext_iff]
  show ((l.dropWhile isPyWhitespace).reverse.dropWhile
    isPyWhitespace).reverse = [] ↔ _
  rw [List.reverse_eq_nil_iff, List.dropWhile_eq_nil_iff]
  show (∀ x ∈ (l.dropWhile isPyWhitespace).reverse, isPyWhitespace x) ↔ _
  rw [show whitespaceOnly ⟨l⟩ = l.all isPyWhitespace from rfl,
    List.all_eq_true]
  constructor
  · intro h
    rw [← dropWhile_forall_iff isPyWhitespace l]
    intro x hx
    exact h x (List.mem_reverse.mpr hx)
  · intro h x hx
    exact h x ((List.dropWhile_sublist _).subset (List.mem_reverse.mp hx))

/-- The spec's wording of the phone pattern agrees with the source regex
`re.fullmatch(r"\+[1-9]\d{1,14}", ·)`. -/
theorem specE164_eq (s : String) : specE164 s = e164_fullmatch s := by
  obtain ⟨l⟩ := s
  cases l with
  | nil => rfl
  | cons first digits =>
    by_cases h : first = '+'
    · subst h
      cases digits with
      | nil => rfl
      | cons d more =>
        show (decide ('+' = '+') && _) = _
        simp [specE164, e164_fullmatch, Bool.and_assoc]
    · have h1 : specE164 ⟨first :: digits⟩ = false := by
        cases digits with
        | nil => simp [specE164, h]
        | cons d more => simp [specE164, h]
      have h2 : e164_fullmatch ⟨first :: digits⟩ = false := by
        unfold e164_fullmatch
        split
        · next d rest heq =>
          exact absurd (List.head_eq_of_cons_eq heq) h
        · rfl
      rw [h1, h2]

/-- The spec's wording of trailing-slash stripping agrees with the source's
`rstrip("/")`. -/
theorem rstripSlashes_eq (s : String) : rstripSlashes s = specStripTrailing s := by
  obtain ⟨l⟩ := s
  show (⟨(l.reverse.dropWhile (fun c => c = '/')).reverse⟩ : String) = ⟨l.take _⟩
  rw [String.ext_iff]
  show (l.reverse.dropWhile (fun c => c = '/')).reverse
      = l.take (l.length - (l.reverse.takeWhile (fun c => c = '/')).length)
  have h2 : (l.reverse.dropWhile (fun c => (c = '/' : Bool))).reverse
      ++ (l.reverse.takeWhile (fun c => (c = '/' : Bool))).reverse = l := by
    rw [← List.reverse_append, List.takeWhile_append_dropWhile,
      List.reverse_reverse]
  have hlen : (l.reverse.dropWhile (fun c => (c = '/' : Bool))).reverse.length
      = l.length - (l.reverse.takeWhile (fun c => (c = '/' : Bool))).length := by
    have := congrArg List.length h2
    rw [List.length_append, List.length_reverse, List.length_reverse] at this
    rw [List.length_reverse]
    omega
  calc (l.reverse.dropWhile (fun c => (c = '/' : Bool))).reverse
      = ((l.reverse.dropWhile (fun c => (c = '/' : Bool))).reverse
          ++ (l.reverse.takeWhile (fun c => (c = '/' : Bool))).reverse).take
          (l.reverse.dropWhile (fun c => (c = '/' : Bool))).reverse.length := by
        rw [List.take_left]
    _ = l.take (l.length - (l.reverse.takeWhile
          (fun c => (c = '/' : Bool))).length) := by
        rw [h2, hlen]

/-!  Branch-shape lemmas for `create_empath_journal_entry`, shared by the
claim theorems below. -/

/-- Invalid input: the 400-shaped envelope is returned, regardless of the
transport oracle. -/
theorem create_invalid_eq (cfg : Config) (post : String → Dict → PostResult)
    (tj up : Option String)
    (h : validation_errors (pyStrip (pyOrEmpty tj)) (pyStrip (pyOrEmpty up)) ≠ []) :
    create_empath_journal_entry cfg post tj up
      = .ok [("ok", .bool false),
             ("status_code", .num 400),
             ("url", .str (endpointOf cfg)),
             ("request_payload", .obj
               [("textJournal", .str (pyStrip (pyOrEmpty tj))),
                ("userPhoneNumber", .str (pyStrip (pyOrEmpty up)))]),
             ("response", .obj
               [("message", .str "Invalid input"),
                ("errors", .obj
                  ((validation_errors (pyStrip (pyOrEmpty tj))
                    (pyStrip (pyOrEmpty up))).map
                      (fun p => (p.1, Value.str p.2))))])] := by
  unfold create_empath_journal_entry
  simp [h]

/-- Valid input, completed HTTP exchange: the after-call envelope. -/
theorem create_completed_eq (cfg : Config) (post : String → Dict → PostResult)
    (tj up : Option String) (r : HttpResponse)
    (hv : validation_errors (pyStrip (pyOrEmpty tj)) (pyStrip (pyOrEmpty up)) = [])
    (ht : pyFloatValid (cfg.empathTimeout.getD "15") = true)
    (hp : post (endpointOf cfg)
        [("textJournal", .str (pyStrip (pyOrEmpty tj))),
         ("userPhoneNumber", .str (pyStrip (pyOrEmpty up)))]
      = .completed r) :
    create_empath_journal_entry cfg post tj up
      = .ok [("ok", .bool (is_success r)),
             ("status_code", .num r.status_code),
             ("url", .str (endpointOf cfg)),
             ("request_payload", .obj
               [("textJournal", .str (pyStrip (pyOrEmpty tj))),
                ("userPhoneNumber", .str (pyStrip (pyOrEmpty up)))]),
             ("response", interpret_response r)] := by
  unfold create_empath_journal_entry
  simp [hv, ht, hp]

/-- Valid input, raised `httpx.HTTPError`: the transport-failure envelope. -/
theorem create_httpError_eq (cfg : Config) (post : String → Dict → PostResult)
    (tj up : Option String) (e : String)
    (hv : validation_errors (pyStrip (pyOrEmpty tj)) (pyStrip (pyOrEmpty up)) = [])
    (ht : pyFloatValid (cfg.empathTimeout.getD "15") = true)
    (hp : post (endpointOf cfg)
        [("textJournal", .str (pyStrip (pyOrEmpty tj))),
         ("userPhoneNumber", .str (pyStrip (pyOrEmpty up)))]
      = .httpError e) :
    create_empath_journal_entry cfg post tj up
      = .ok [("ok", .bool false),
             ("error", .str e),
             ("url", .str (endpointOf cfg)),
             ("request_payload", .obj
               [("textJournal", .str (pyStrip (pyOrEmpty tj))),
                ("userPhoneNumber", .str (pyStrip (pyOrEmpty up)))])] := by
  unfold create_empath_journal_entry
  simp [hv, ht, hp]

/-- Valid input but a timeout override rejected by `float(...)`: the
`ValueError` raised on line 102 escapes the function. -/
theorem create_badTimeout_eq (cfg : Config) (post : String → Dict → PostResult)
    (tj up : Option String)
    (hv : validation_errors (pyStrip (pyOrEmpty tj)) (pyStrip (pyOrEmpty up)) = [])
    (ht : pyFloatValid (cfg.empathTimeout.getD "15") = false) :
    create_empath_journal_entry cfg post tj up
      = .error "ValueError: could not convert string to float" := by
  unfold create_empath_journal_entry
  simp [hv, ht]

/-!  Claim theorems. -/

/-- Claim C1: for every phone-number input, after trimming, the phone field
passes validation (no `user_phone_number` entry in the error map built by
the function) exactly when the trimmed string matches `+`, a first digit
1–9, and 1 to 14 more digits; on failure the entry carries the reason
"Must be E.164, e.g., +15551234567."  (`specE164` is the spec's wording of
the pattern; `validation_errors` is the source's check.) -/
theorem C1_phone_validation_iff (text_journal user_phone_number : Option String) :
    fieldErr (validation_errors (pyStrip (pyOrEmpty text_journal))
        (pyStrip (pyOrEmpty user_phone_number))) "user_phone_number"
      = if specE164 (pyStrip (pyOrEmpty user_phone_number)) then none
        else some "Must be E.164, e.g., +15551234567." := by
  rw [specE164_eq]
  unfold validation_errors fieldErr
  by_cases ht : pyStrip (pyOrEmpty text_journal) = "" <;>
    by_cases hp : e164_fullmatch (pyStrip (pyOrEmpty user_phone_number)) = true <;>
      simp [ht, hp]

/-- Claim C2: the text field fails validation exactly when the input is
empty after trimming — equivalently, empty or whitespace-only — and on
failure the error map carries key `text_journal` with reason "Must be
non-empty after trimming."; any input containing a non-whitespace
character passes. -/
theorem C2_text_validation_iff (text_journal user_phone_number : Option String) :
    (fieldErr (validation_errors (pyStrip (pyOrEmpty text_journal))
        (pyStrip (pyOrEmpty user_phone_number))) "text_journal"
      = if whitespaceOnly (pyOrEmpty text_journal) then
          some "Must be non-empty after trimming." else none)
    ∧ (pyStrip (pyOrEmpty text_journal) = ""
        ↔ whitespaceOnly (pyOrEmpty text_journal) = true) := by
  refine ⟨?_, pyStrip_eq_empty_iff _⟩
  unfold validation_errors fieldErr
  by_cases ht : whitespaceOnly (pyOrEmpty text_journal) = true <;>
    by_cases hp : e164_fullmatch (pyStrip (pyOrEmpty user_phone_number)) = true <;>
      simp [ht, hp, (pyStrip_eq_empty_iff (pyOrEmpty text_journal)),
        -Bool.if_true_left]

/-- Claim C3: whenever validation fails, the function returns the
400-shaped envelope — `ok:false`, `status_code:400`, the computed endpoint,
the trimmed unvalidated payload, and `response = {message: "Invalid
input", errors: the field-error map}` — and the result does not depend on
the transport oracle (no HTTP call is attempted). -/
theorem C3_validation_failure_envelope (cfg : Config)
    (post post2 : String → Dict → PostResult) (tj up : Option String)
    (h : validation_errors (pyStrip (pyOrEmpty tj)) (pyStrip (pyOrEmpty up)) ≠ []) :
    create_empath_journal_entry cfg post tj up
      = .ok [("ok", .bool false),
             ("status_code", .num 400),
             ("url", .str (endpointOf cfg)),
             ("request_payload", .obj
               [("textJournal", .str (pyStrip (pyOrEmpty tj))),
                ("userPhoneNumber", .str (pyStrip (pyOrEmpty up)))]),
             ("response", .obj
               [("message", .str "Invalid input"),
                ("errors", .obj
                  ((validation_errors (pyStrip (pyOrEmpty tj))
                    (pyStrip (pyOrEmpty up))).map
                      (fun p => (p.1, Value.str p.2))))])]
    ∧ create_empath_journal_entry cfg post tj up
        = create_empath_journal_entry cfg post2 tj up :=
  ⟨create_invalid_eq cfg post tj up h, by
    rw [create_invalid_eq cfg post tj up h,
      create_invalid_eq cfg post2 tj up h]⟩

/-- Witness for C3: text `" "` and phone `"abc"` are both invalid; the
envelope is the 400 shape with both error keys, for any transport
oracle. -/
theorem C3_validation_failure_envelope_witness :
    create_empath_journal_entry ⟨none, none⟩
        (fun _ _ => .httpError "boom") (some " ") (some "abc")
      = create_empath_journal_entry ⟨none, none⟩
          (fun _ _ => .completed ⟨200, "", "", none⟩) (some " ") (some "abc") :=
  (C3_validation_failure_envelope ⟨none, none⟩
    (fun _ _ => .httpError "boom")
    (fun _ _ => .completed ⟨200, "", "", none⟩)
    (some " ") (some "abc") (by decide)).2

/-- Claim C4: on a completed HTTP exchange, the envelope carries `ok` true
exactly for a 200–299 status, the numeric status, the endpoint, the exact
payload sent (the same list handed to the transport oracle), and the
interpreted body; a non-2xx status is returned as `ok:false` with the body
in `response`, never raised or remapped. -/
theorem C4_completed_exchange_envelope (cfg : Config)
    (post : String → Dict → PostResult)
    (tj up : Option String) (r : HttpResponse)
    (hv : validation_errors (pyStrip (pyOrEmpty tj)) (pyStrip (pyOrEmpty up)) = [])
    (ht : pyFloatValid (cfg.empathTimeout.getD "15") = true)
    (hp : post (endpointOf cfg)
        [("textJournal", .str (pyStrip (pyOrEmpty tj))),
         ("userPhoneNumber", .str (pyStrip (pyOrEmpty up)))]
      = .completed r) :
    create_empath_journal_entry cfg post tj up
      = .ok [("ok", .bool (is_success r)),
             ("status_code", .num r.status_code),
             ("url", .str (endpointOf cfg)),
             ("request_payload", .obj
               [("textJournal", .str (pyStrip (pyOrEmpty tj))),
                ("userPhoneNumber", .str (pyStrip (pyOrEmpty up)))]),
             ("response", interpret_response r)]
    ∧ (is_success r = true ↔ 200 ≤ r.status_code ∧ r.status_code ≤ 299) :=
  ⟨create_completed_eq cfg post tj up r hv ht hp, by simp [is_success]⟩

/-- Witness for C4: an upstream 402 with a JSON body yields `ok:false`,
`status_code:402`, and the body preserved in `response`. -/
theorem C4_completed_exchange_envelope_witness :
    create_empath_journal_entry ⟨none, none⟩
        (fun _ _ => .completed ⟨402, "application/json", "{}",
          some (.obj [("message", .str "Free limit reached"),
                      ("limitReached", .bool true)])⟩)
        (some "Good day") (some "+15551234567")
      = .ok [("ok", .bool false),
             ("status_code", .num 402),
             ("url", .str
               "https://app.empathdash.com/api/journals/createTextEntryOrRegister"),
             ("request_payload", .obj
               [("textJournal", .str "Good day"),
                ("userPhoneNumber", .str "+15551234567")]),
             ("response", .obj [("message", .str "Free limit reached"),
                                ("limitReached", .bool true)])]
    ∧ (is_success ⟨402, "application/json", "{}",
          some (.obj [("message", .str "Free limit reached"),
                      ("limitReached", .bool true)])⟩ = true
        ↔ 200 ≤ 402 ∧ 402 ≤ 299) :=
  C4_completed_exchange_envelope ⟨none, none⟩
    (fun _ _ => .completed ⟨402, "application/json", "{}",
      some (.obj [("message", .str "Free limit reached"),
                  ("limitReached", .bool true)])⟩)
    (some "Good day") (some "+15551234567")
    ⟨402, "application/json", "{}",
      some (.obj [("message", .str "Free limit reached"),
                  ("limitReached", .bool true)])⟩
    (by decide) (by decide) rfl

/-- Claim C5: on a transport-level failure (an `httpx.HTTPError`), the
function returns the transport-failure envelope — `ok:false`, the error's
string description, the endpoint, the payload that was sent — with no
`status_code` and no `response` field, instead of propagating the
exception. -/
theorem C5_transport_failure_envelope (cfg : Config)
    (post : String → Dict → PostResult)
    (tj up : Option String) (e : String)
    (hv : validation_errors (pyStrip (pyOrEmpty tj)) (pyStrip (pyOrEmpty up)) = [])
    (ht : pyFloatValid (cfg.empathTimeout.getD "15") = true)
    (hp : post (endpointOf cfg)
        [("textJournal", .str (pyStrip (pyOrEmpty tj))),
         ("userPhoneNumber", .str (pyStrip (pyOrEmpty up)))]
      = .httpError e) :
    create_empath_journal_entry cfg post tj up
      = .ok [("ok", .bool false),
             ("error", .str e),
             ("url", .str (endpointOf cfg)),
             ("request_payload", .obj
               [("textJournal", .str (pyStrip (pyOrEmpty tj))),
                ("userPhoneNumber", .str (pyStrip (pyOrEmpty up)))])]
    ∧ resLookup (create_empath_journal_entry cfg post tj up) "status_code" = none
    ∧ resLookup (create_empath_journal_entry cfg post tj up) "response" = none := by
  have h := create_httpError_eq cfg post tj up e hv ht hp
  refine ⟨h, ?_, ?_⟩ <;> rw [h] <;> rfl

/-- Witness for C5: a timed-out upstream yields `ok:false`, an `error`
string, and neither `status_code` nor `response`. -/
theorem C5_transport_failure_envelope_witness :
    create_empath_journal_entry ⟨none, none⟩
        (fun _ _ => .httpError "timed out") (some "hi") (some "+15551234567")
      = .ok [("ok", .bool false),
             ("error", .str "timed out"),
             ("url", .str
               "https://app.empathdash.com/api/journals/createTextEntryOrRegister"),
             ("request_payload", .obj
               [("textJournal", .str "hi"),
                ("userPhoneNumber", .str "+15551234567")])]
    ∧ resLookup (create_empath_journal_entry ⟨none, none⟩
        (fun _ _ => .httpError "timed out") (some "hi") (some "+15551234567"))
        "status_code" = none
    ∧ resLookup (create_empath_journal_entry ⟨none, none⟩
        (fun _ _ => .httpError "timed out") (some "hi") (some "+15551234567"))
        "response" = none :=
  C5_transport_failure_envelope ⟨none, none⟩
    (fun _ _ => .httpError "timed out") (some "hi") (some "+15551234567")
    "timed out" (by decide) (by decide) rfl

/-- Claim C6: a completed response body is interpreted by its declared
content type — a JSON content type is parsed, falling back to the raw text
when the parse raises (the parse error never fails the call), and any
other content type yields the raw text body. -/
theorem C6_content_type_interpretation (cfg : Config)
    (post : String → Dict → PostResult)
    (tj up : Option String) (r : HttpResponse)
    (hv : validation_errors (pyStrip (pyOrEmpty tj)) (pyStrip (pyOrEmpty up)) = [])
    (ht : pyFloatValid (cfg.empathTimeout.getD "15") = true)
    (hp : post (endpointOf cfg)
        [("textJournal", .str (pyStrip (pyOrEmpty tj))),
         ("userPhoneNumber", .str (pyStrip (pyOrEmpty up)))]
      = .completed r) :
    (strContains r.content_type "application/json" = true → r.jsonParse = none →
      resLookup (create_empath_journal_entry cfg post tj up) "response"
        = some (.str r.text))
    ∧ (strContains r.content_type "application/json" = false →
      resLookup (create_empath_journal_entry cfg post tj up) "response"
        = some (.str r.text))
    ∧ (∀ v, strContains r.content_type "application/json" = true →
        r.jsonParse = some v →
      resLookup (create_empath_journal_entry cfg post tj up) "response"
        = some v) := by
  have h := create_completed_eq cfg post tj up r hv ht hp
  have hresp : resLookup (create_empath_journal_entry cfg post tj up) "response"
      = some (interpret_response r) := by rw [h]; rfl
  refine ⟨?_, ?_, ?_⟩
  · intro hc hj; rw [hresp]; simp [interpret_response, hc, hj]
  · intro hc; rw [hresp]; simp [interpret_response, hc]
  · intro v hc hj; rw [hresp]; simp [interpret_response, hc, hj]

/-- Witness for C6: an upstream `text/plain` response with body `oops`
yields `response == "oops"` as a string. -/
theorem C6_content_type_interpretation_witness :
    resLookup (create_empath_journal_entry ⟨none, none⟩
        (fun _ _ => .completed ⟨200, "text/plain", "oops", none⟩)
        (some "hi") (some "+15551234567")) "response"
      = some (.str "oops") :=
  (C6_content_type_interpretation ⟨none, none⟩
    (fun _ _ => .completed ⟨200, "text/plain", "oops", none⟩)
    (some "hi") (some "+15551234567") ⟨200, "text/plain", "oops", none⟩
    (by decide) (by decide) rfl).2.1 (by decide)

/-- Claim C7, counterexample: with `EMPATH_TIMEOUT` set to a string that
`float(...)` rejects, valid inputs reach line 102 and the uncaught
`ValueError` escapes the function instead of an envelope being returned —
refuting "every execution path returns an envelope" for every
configuration. -/
theorem C7_timeout_coercion_counterexample :
    create_empath_journal_entry ⟨none, some "not a number"⟩
      (fun _ _ => .httpError "x") (some "hello") (some "+15551234567")
      = .error "ValueError: could not convert string to float" := by rfl

/-- Claim C7 as amended: for every input and every configuration whose
timeout override is absent or accepted by `float(...)`, every execution
path returns an envelope — no exception escapes the operation boundary. -/
theorem C7_no_escape_amended (cfg : Config)
    (post : String → Dict → PostResult) (tj up : Option String)
    (ht : pyFloatValid (cfg.empathTimeout.getD "15") = true) :
    ∃ d, create_empath_journal_entry cfg post tj up = .ok d := by
  by_cases hv : validation_errors (pyStrip (pyOrEmpty tj))
      (pyStrip (pyOrEmpty up)) = []
  · cases hp : post (endpointOf cfg)
        [("textJournal", .str (pyStrip (pyOrEmpty tj))),
         ("userPhoneNumber", .str (pyStrip (pyOrEmpty up)))] with
    | completed r => exact ⟨_, create_completed_eq cfg post tj up r hv ht hp⟩
    | httpError e => exact ⟨_, create_httpError_eq cfg post tj up e hv ht hp⟩
  · exact ⟨_, create_invalid_eq cfg post tj up hv⟩

/-- Witness for the amended C7: with the timeout unset (default "15"), a
concrete call returns an envelope. -/
theorem C7_no_escape_amended_witness :
    ∃ d, create_empath_journal_entry ⟨none, none⟩
      (fun _ _ => .httpError "x") (some "hi") (some "+15551234567")
      = .ok d :=
  C7_no_escape_amended ⟨none, none⟩ (fun _ _ => .httpError "x")
    (some "hi") (some "+15551234567") (by decide)

/-- Claim C8: every envelope the function returns carries as `url` the
configured base URL (default `https://app.empathdash.com`) with its
trailing slashes stripped, concatenated with
`/api/journals/createTextEntryOrRegister` (`specEndpoint` is the spec's
wording of this construction). -/
theorem C8_endpoint_construction (cfg : Config)
    (post : String → Dict → PostResult)
    (tj up : Option String) (d : Dict)
    (h : create_empath_journal_entry cfg post tj up = .ok d) :
    dictGet d "url" = some (.str (specEndpoint cfg)) := by
  have hend : endpointOf cfg = specEndpoint cfg := by
    unfold endpointOf specEndpoint
    rw [rstripSlashes_eq]
  by_cases hv : validation_errors (pyStrip (pyOrEmpty tj))
      (pyStrip (pyOrEmpty up)) = []
  · by_cases ht : pyFloatValid (cfg.empathTimeout.getD "15") = true
    · cases hp : post (endpointOf cfg)
          [("textJournal", .str (pyStrip (pyOrEmpty tj))),
           ("userPhoneNumber", .str (pyStrip (pyOrEmpty up)))] with
      | completed r =>
          rw [create_completed_eq cfg post tj up r hv ht hp] at h
          injection h with h2
          subst h2
          rw [← hend]
          rfl
      | httpError e =>
          rw [create_httpError_eq cfg post tj up e hv ht hp] at h
          injection h with h2
          subst h2
          rw [← hend]
          rfl
    · rw [create_badTimeout_eq cfg post tj up hv (by simpa using ht)] at h
      exact absurd h (by simp)
  · rw [create_invalid_eq cfg post tj up hv] at h
    injection h with h2
    subst h2
    rw [← hend]
    rfl

/-- Witness for C8: a base URL with trailing slashes gives an envelope
whose `url` is the stripped base plus the API path. -/
theorem C8_endpoint_construction_witness :
    dictGet [("ok", .bool false),
             ("error", .str "down"),
             ("url", .str
               "https://example.com/api/journals/createTextEntryOrRegister"),
             ("request_payload", .obj
               [("textJournal", .str "hi"),
                ("userPhoneNumber", .str "+15551234567")])] "url"
      = some (.str (specEndpoint ⟨some "https://example.com///", some "2.5"⟩)) :=
  C8_endpoint_construction ⟨some "https://example.com///", some "2.5"⟩
    (fun _ _ => .httpError "down") (some "hi") (some "+15551234567")
    [("ok", .bool false),
     ("error", .str "down"),
     ("url", .str
       "https://example.com/api/journals/createTextEntryOrRegister"),
     ("request_payload", .obj
       [("textJournal", .str "hi"),
        ("userPhoneNumber", .str "+15551234567")])]
    (by rfl)

/-- Claim C9: the help document is a pure function of the configured base
URL — two configurations agreeing on the base URL (whatever their timeout
override) yield the same document, and repeated calls under one
configuration are definitionally identical; the definition performs no
validation and consults no transport oracle. -/
theorem C9_help_pure (c1 c2 : Config)
    (h : c1.empathBaseUrl = c2.empathBaseUrl) :
    get_empath_tools_help c1 = get_empath_tools_help c2
    ∧ get_empath_tools_help c1 = get_empath_tools_help c1 := by
  unfold get_empath_tools_help
  rw [h]
  exact ⟨rfl, rfl⟩

/-- Witness for C9: two configurations sharing a base URL but differing in
timeout produce identical help documents. -/
theorem C9_help_pure_witness :
    get_empath_tools_help ⟨some "https://example.com/", some "1"⟩
      = get_empath_tools_help ⟨some "https://example.com/", some "30"⟩
    ∧ get_empath_tools_help ⟨some "https://example.com/", some "1"⟩
      = get_empath_tools_help ⟨some "https://example.com/", some "1"⟩ :=
  C9_help_pure ⟨some "https://example.com/", some "1"⟩
    ⟨some "https://example.com/", some "30"⟩ rfl

/-- Claim C10: a `None` text or phone argument is treated as the empty
string — no exception is raised: the call returns the 400-shaped envelope
with the corresponding field reported in the error map. -/
theorem C10_none_inputs_safe (cfg : Config)
    (post : String → Dict → PostResult) (other : Option String) :
    ((∃ d, create_empath_journal_entry cfg post none other = .ok d)
     ∧ errLookup (create_empath_journal_entry cfg post none other)
         "text_journal" = some (.str "Must be non-empty after trimming.")
     ∧ resLookup (create_empath_journal_entry cfg post none other)
         "status_code" = some (.num 400))
    ∧ ((∃ d, create_empath_journal_entry cfg post other none = .ok d)
     ∧ errLookup (create_empath_journal_entry cfg post other none)
         "user_phone_number" = some (.str "Must be E.164, e.g., +15551234567.")
     ∧ resLookup (create_empath_journal_entry cfg post other none)
         "status_code" = some (.num 400)) := by
  have hnil : pyStrip (pyOrEmpty none) = "" := rfl
  have hne : e164_fullmatch (pyStrip (pyOrEmpty none)) = false := rfl
  constructor
  · have h1 : validation_errors (pyStrip (pyOrEmpty none))
        (pyStrip (pyOrEmpty other)) ≠ [] := by
      unfold validation_errors
      simp [hnil]
    have he := create_invalid_eq cfg post none other h1
    refine ⟨⟨_, he⟩, ?_, ?_⟩
    · rw [he]
      show errLookup (Except.ok _) "text_journal" = _
      unfold validation_errors
      by_cases hp : e164_fullmatch (pyStrip (pyOrEmpty other)) = true <;>
        simp [hp, hnil, errLookup, dictGet]
    · rw [he]; rfl
  · have h1 : validation_errors (pyStrip (pyOrEmpty other))
        (pyStrip (pyOrEmpty none)) ≠ [] := by
      unfold validation_errors
      by_cases ht : pyStrip (pyOrEmpty other) = "" <;> simp [ht, hne]
    have he := create_invalid_eq cfg post other none h1
    refine ⟨⟨_, he⟩, ?_, ?_⟩
    · rw [he]
      show errLookup (Except.ok _) "user_phone_number" = _
      unfold validation_errors
      by_cases ht : pyStrip (pyOrEmpty other) = "" <;>
        simp [ht, hne, errLookup, dictGet]
    · rw [he]; rfl
